import Mathlib

/-!
Verification development for the leaderboard-app client (a React/Supabase
club-membership application).  The definitions below are a shallow embedding
of the client-side handlers named in the claims: each handler is modelled as
a pure function from its component state and from the outcomes of the remote
calls it performs (supplied as an explicit environment) to the list of remote
calls it issues together with its user-visible outcome.
-/

namespace LeaderboardApp

/-! ## Data model (from the source type declarations) -/

/-- A signed-in auth user (src/hooks/use-auth): we keep the fields the
modelled handlers consult. -/
structure AuthUser where
  id : String
  email : String
  deriving DecidableEq, Repr

/-- Row of the shop catalogue (src/src/pages/shop-page.tsx, ShopItemType). -/
structure ShopItemType where
  id : String
  name : String
  points_cost : Int
  deriving DecidableEq, Repr

/-- A notification row (src/src/components/borrowings/borrowing-card.tsx,
Notification). -/
structure NotificationRow where
  id : String
  message : String
  is_read : Bool
  deriving DecidableEq, Repr

/-- An announcement (src/src/lib/storage.ts, Announcement). -/
structure Announcement where
  id : String
  title : String
  content : String
  type_ : String
  deriving DecidableEq, Repr

/-- An equipment entry (src/src/lib/storage.ts, Equipment). -/
structure Equipment where
  id : String
  name : String
  count : Int
  type_ : String
  description : String
  deriving DecidableEq, Repr

/-- Row of the profiles_with_points view as consumed by the leaderboard
(src/src/components/leaderboard/leaderboard.tsx, LeaderboardUser). -/
structure ProfileRow where
  id : String
  name : String
  points : Int
  is_admin : Bool
  deriving DecidableEq, Repr

/-- The notification message built by addPoints before calling
create_notification (leaderboard.tsx lines 148-157). -/
inductive NotifMessage
  | earned (n : Int)
  | deducted (n : Int)
  deriving DecidableEq, Repr

/-- The remote calls the modelled handlers can issue, with the argument
shapes used at the call sites. -/
inductive RemoteCall
  | rpc_add_points_to_user (user_uuid : String) (points_to_add : Int)
  | rpc_create_notification (user_uuid : String) (message : NotifMessage)
      (notification_type : String)
  | select_profiles_with_points
  | rpc_purchase_shop_item (item_uuid : String) (user_uuid : String)
      (quantity : Int)
  | rpc_fetch_user_points (user_uuid : String)
  | upsert_cart_items (user_id : String) (item_id : String) (quantity : Int)
  | rpc_update_claim_status (claim_uuid : String) (new_status : String)
  | select_claims
  | rpc_mark_notification_read (notification_uuid : String)
  | rpc_toggle_borrowing_visibility (claim_id : String)
  | select_equipment_stats
  | rpc_load_equipment_for_client_v2
  | rpc_simple_load_equipment
  | rpc_fix_equipment_loading
  | select_announcements
  | select_announcement_ids
  | delete_announcements (ids : List String)
  | upsert_announcements (rows : List Announcement)
  | select_equipment_ids
  | delete_equipment_stats (ids : List String)
  | upsert_equipment_stats (rows : List Equipment)
  | rpc_create_equipment_stats_table
  deriving DecidableEq, Repr

/-- Whether a remote call is a side-effecting (write) call, as opposed to a
read of a table, view or balance. -/
def RemoteCall.isWrite : RemoteCall → Bool
  | .rpc_add_points_to_user _ _ => true
  | .rpc_create_notification _ _ _ => true
  | .rpc_purchase_shop_item _ _ _ => true
  | .upsert_cart_items _ _ _ => true
  | .rpc_update_claim_status _ _ => true
  | .rpc_mark_notification_read _ => true
  | .rpc_toggle_borrowing_visibility _ => true
  | .delete_announcements _ => true
  | .upsert_announcements _ => true
  | .delete_equipment_stats _ => true
  | .upsert_equipment_stats _ => true
  | .rpc_create_equipment_stats_table => true
  | _ => false

/-! ## Point adjustments (leaderboard.tsx) -/

/-- An entry of the fixed adjustment list (leaderboard.tsx lines 32-35). -/
structure PointAdjustment where
  value : Int
  label : String
  deriving DecidableEq, Repr

/-- The fixed adjustment set rendered by the leaderboard admin controls
(leaderboard.tsx lines 37-44). -/
def POINT_ADJUSTMENTS : List PointAdjustment :=
  [ { value := -10, label := "-10" },
    { value := -5, label := "-5" },
    { value := -1, label := "-1" },
    { value := 1, label := "+1" },
    { value := 5, label := "+5" },
    { value := 10, label := "+10" } ]

/-- Failure switches for the remote calls addPoints performs. -/
structure AddPointsEnv where
  addPointsError : Bool
  notifError : Bool
  deriving DecidableEq, Repr

/-- User-visible outcome of addPoints. -/
inductive AddPointsOutcome
  | notAdmin
  | successToast
  | failureToast
  deriving DecidableEq, Repr

/-- Shallow embedding of addPoints (leaderboard.tsx lines 128-188).
adminEnv is the VITE_ADMIN_EMAIL environment value read at line 63 (no
fallback there).  Returns the remote calls issued, in order, and the
outcome.  On rpc success the handler builds a notification message from the
sign of pointsToAdd, issues create_notification, and refreshes the
leaderboard via the profiles_with_points read inside fetchUsers. -/
def addPoints (adminEnv : Option String) (user : Option AuthUser)
    (userId : String) (pointsToAdd : Int) (env : AddPointsEnv) :
    List RemoteCall × AddPointsOutcome :=
  match user with
  | none => ([], .notAdmin)
  | some u =>
    if some u.email = adminEnv then
      if env.addPointsError then
        ([.rpc_add_points_to_user userId pointsToAdd], .failureToast)
      else
        let msg : NotifMessage :=
          if pointsToAdd > 0 then .earned pointsToAdd
          else .deducted pointsToAdd.natAbs
        ([.rpc_add_points_to_user userId pointsToAdd,
          .rpc_create_notification userId msg
            (if pointsToAdd > 0 then "success" else "error"),
          .select_profiles_with_points], .successToast)
    else ([], .notAdmin)

/-- Shallow embedding of handlePointChange of the AdminPanel component
(leaderboard.tsx lines 987-1028): guarded by the isAdmin switch and the
authorised-admin flag, then a single add_points_to_user rpc with the exact
pointChange, followed by the onPointsUpdated refresh (a
profiles_with_points read). -/
def handlePointChange (isAdmin isAuthorizedAdmin : Bool) (userId : String)
    (pointChange : Int) (rpcError : Bool) : List RemoteCall :=
  if !isAdmin || !isAuthorizedAdmin then []
  else if rpcError then [.rpc_add_points_to_user userId pointChange]
  else [.rpc_add_points_to_user userId pointChange,
        .select_profiles_with_points]

/-- The onClick wiring of an admin-controls adjustment button
(leaderboard.tsx line 351): it calls addPoints with the target user id and
the adjustment value. -/
def adminControlsClick (adminEnv : Option String) (user : Option AuthUser)
    (targetId : String) (adj : PointAdjustment) (env : AddPointsEnv) :
    List RemoteCall × AddPointsOutcome :=
  addPoints adminEnv user targetId adj.value env

/-! ## Shop purchases and cart (shop-page.tsx) -/

/-- The toast shown by handlePurchase. -/
inductive PurchaseToast
  | signInError
  | insufficientPoints
  | successToast
  | failureToast
  deriving DecidableEq, Repr

/-- Shallow embedding of handlePurchase (shop-page.tsx lines 138-180).
userPoints is the displayed balance state; purchaseError is the outcome of
the purchase_shop_item rpc.  On rpc success the handler refreshes the
balance via fetch_user_points. -/
def handlePurchase (user : Option AuthUser) (userPoints : Int)
    (item : ShopItemType) (purchaseError : Bool) :
    List RemoteCall × PurchaseToast :=
  match user with
  | none => ([], .signInError)
  | some u =>
    if userPoints < item.points_cost then ([], .insufficientPoints)
    else if purchaseError then
      ([.rpc_purchase_shop_item item.id u.id 1], .failureToast)
    else
      ([.rpc_purchase_shop_item item.id u.id 1, .rpc_fetch_user_points u.id],
       .successToast)

/-- Shallow embedding of addToCart (shop-page.tsx lines 182-220): for a
signed-in user the upsert is issued unconditionally. -/
def addToCart (user : Option AuthUser) (item : ShopItemType) :
    List RemoteCall :=
  match user with
  | none => []
  | some u => [.upsert_cart_items u.id item.id 1]

/-! ## Equipment maintenance form (src/unnamed/part_006) -/

/-- The fields of the new-equipment form (part_006 lines 107-112). -/
structure EquipmentForm where
  name : String
  count : Int
  type_ : String
  description : String
  deriving DecidableEq, Repr

/-- Shallow embedding of addEquipment (part_006 lines 285-310): the handler
returns early, issuing no save, when the name is empty or the count is not
positive; otherwise it appends the new entry and calls saveEquipment.
Returns some updated list when the save is issued, none when blocked. -/
def addEquipment (newEquipment : EquipmentForm) (newId : String)
    (equipment : List Equipment) : Option (List Equipment) :=
  if newEquipment.name = "" || newEquipment.count ≤ 0 then none
  else some (equipment ++
    [{ id := newId, name := newEquipment.name, count := newEquipment.count,
       type_ := newEquipment.type_,
       description := newEquipment.description }])

/-! ## Claim approval and notifications (signup-form.tsx pane,
borrowing-card.tsx) -/

/-- Shallow embedding of handleUpdateStatus (signup-form.tsx lines
1307-1339): a single update_claim_status_with_notification rpc, then on
success the claims-list refresh (a read). -/
def handleUpdateStatus (claimId : String) (newStatus : String)
    (rpcError : Bool) : List RemoteCall :=
  if rpcError then [.rpc_update_claim_status claimId newStatus]
  else [.rpc_update_claim_status claimId newStatus, .select_claims]

/-- Shallow embedding of handleMarkAsRead (borrowing-card.tsx lines
166-187): returns early when the notification is already read, else a
single mark_notification_read rpc. -/
def handleMarkAsRead (notification : NotificationRow) : List RemoteCall :=
  if notification.is_read then []
  else [.rpc_mark_notification_read notification.id]

/-! ## Borrowing visibility toggle (borrowing-card.tsx) -/

/-- Outcome of toggleVisibility: the toast text and whether the
onVisibilityChange refresh callback was invoked. -/
structure ToggleOutcome where
  message : String
  refreshed : Bool
  deriving DecidableEq, Repr

/-- Shallow embedding of toggleVisibility (borrowing-card.tsx lines 35-62).
res is the completed rpc result: an error, or the returned boolean.
hasCallback records whether an onVisibilityChange callback was supplied
(the borrowings page supplies fetchBorrowings, line 143 of
borrowings-page.tsx). -/
def toggleVisibility (borrowingId : String) (hasCallback : Bool)
    (res : Except String Bool) : ToggleOutcome × List RemoteCall :=
  match res with
  | .error _ =>
    ({ message := "Failed to update visibility", refreshed := false },
     [.rpc_toggle_borrowing_visibility borrowingId])
  | .ok data =>
    ({ message := "Borrowing is now " ++ (if data then "hidden" else "visible"),
       refreshed := hasCallback },
     [.rpc_toggle_borrowing_visibility borrowingId])

/-! ## Notifications realtime callback (borrowing-card.tsx,
NotificationsCenter) -/

/-- Effect of the realtime INSERT callback. -/
structure CallbackEffect where
  newList : List NotificationRow
  toastShown : Bool
  calls : List RemoteCall
  deriving DecidableEq, Repr

/-- Shallow embedding of the postgres_changes INSERT callback of
NotificationsCenter (borrowing-card.tsx lines 306-315): it prepends
payload.new to the previous list and shows a toast; it performs no remote
call. -/
def notificationInsertCallback (payloadNew : NotificationRow)
    (prev : List NotificationRow) : CallbackEffect :=
  { newList := payloadNew :: prev, toastShown := true, calls := [] }

/-- The unread badge count (borrowing-card.tsx line 370). -/
def unreadCount (l : List NotificationRow) : Nat :=
  (l.filter (fun n => !n.is_read)).length

/-! ## Admin identity checks (protected-route.tsx, shop-page.tsx,
borrowings-page.tsx, user-management.tsx, leaderboard.tsx, part_006) -/

/-- The hardcoded administrator address that appears at several call
sites. -/
def hardcodedAdminEmail : String := "ademmsallem782@gmail.com"

/-- JS truthiness fallback `env || hardcodedAdminEmail` on the possibly
undefined VITE_ADMIN_EMAIL (the empty string is falsy). -/
def envOrHardcoded (env : Option String) : String :=
  match env with
  | some s => if s = "" then hardcodedAdminEmail else s
  | none => hardcodedAdminEmail

/-- protected-route.tsx lines 6 and 22: compare the user email against
VITE_ADMIN_EMAIL with the hardcoded fallback.  userEmail is none when no
user is signed in (JS undefined). -/
def protectedRouteIsAdmin (env : Option String) (userEmail : Option String) :
    Bool :=
  userEmail == some (envOrHardcoded env)

/-- shop-page.tsx line 50 (same shape at announcements-page.tsx line 11 and
part_006 line 124): strict equality of the possibly undefined user email
with the possibly undefined VITE_ADMIN_EMAIL. -/
def shopPageIsAdmin (env : Option String) (userEmail : Option String) :
    Bool :=
  userEmail == env

/-- borrowings-page.tsx lines 32 and 38: the comparison is against the
hardcoded address, with no use of the environment. -/
def borrowingsPageIsAdmin (userEmail : Option String) : Bool :=
  userEmail == some hardcodedAdminEmail

/-- user-management.tsx line 26: fetchUsers decides admin status against
the hardcoded address, with no use of the environment. -/
def userManagementIsAdmin (userEmail : Option String) : Bool :=
  userEmail == some hardcodedAdminEmail

/-- leaderboard.tsx lines 961 and 978 (AdminPanel): the authorised-admin
flag is set against the hardcoded address, with no use of the
environment. -/
def adminPanelIsAuthorized (userEmail : String) : Bool :=
  userEmail == hardcodedAdminEmail

/-! ## Leaderboard fetchUsers (leaderboard.tsx lines 88-126) -/

/-- A leaderboard row after ranking. -/
structure RankedUser where
  row : ProfileRow
  rank : Nat
  deriving DecidableEq, Repr

/-- The filter pass of fetchUsers: a row is dropped when its id is already
in the uniqueUsers set or when it is flagged is_admin; a kept row adds its
id to the set (leaderboard.tsx lines 101-109). -/
def filterUniqueNonAdmin : List ProfileRow → List String → List ProfileRow
  | [], _ => []
  | r :: rest, seen =>
    if seen.contains r.id || r.is_admin then filterUniqueNonAdmin rest seen
    else r :: filterUniqueNonAdmin rest (r.id :: seen)

/-- The map pass of fetchUsers: rank := index + 1 (lines 110-113). -/
def rankRows (rows : List ProfileRow) : List RankedUser :=
  rows.enum.map (fun p => { row := p.2, rank := p.1 + 1 })

/-- fetchUsers applied to the rows returned by the profiles_with_points
read (already ordered points-descending by the backend). -/
def fetchUsersRank (rows : List ProfileRow) : List RankedUser :=
  rankRows (filterUniqueNonAdmin rows [])

/-! ## Local storage read paths (storage.ts) -/

/-- Default announcements (storage.ts lines 26-45); only the shape matters
for the claims, the content is kept faithful in ids and titles. -/
def DEFAULT_ANNOUNCEMENTS : List Announcement :=
  [ { id := "1", title := "New Equipment",
      content := "We have added new professional microphones to our inventory!",
      type_ := "news" },
    { id := "2", title := "Workshop",
      content := "Join our sound mixing workshop this Saturday at 2pm.",
      type_ := "event" },
    { id := "3", title := "Contest",
      content := "Submit your short films for our monthly contest by the 25th.",
      type_ := "alert" } ]

/-- Default equipment (storage.ts lines 47-90), abbreviated descriptions. -/
def DEFAULT_EQUIPMENT : List Equipment :=
  [ { id := "1", name := "Professional DSLR Cameras", count := 8,
      type_ := "camera", description := "High-quality DSLR cameras." },
    { id := "2", name := "Condenser Microphones", count := 12,
      type_ := "microphone", description := "Studio-quality microphones." },
    { id := "3", name := "Camera Tripods", count := 10,
      type_ := "camera", description := "Adjustable height tripods." },
    { id := "4", name := "Wireless Lavalier Mics", count := 6,
      type_ := "microphone", description := "Clip-on wireless microphones." },
    { id := "5", name := "LED Light Panels", count := 8,
      type_ := "lighting", description := "Adjustable brightness LED panels." },
    { id := "6", name := "Audio Mixers", count := 4,
      type_ := "audio", description := "Multi-channel audio mixers." } ]

/-- The remote write calls issued by saveAnnouncements (storage.ts lines
123-194) after the localStorage backup: a read of existing ids, a delete of
the ids no longer present (when any), and a batch upsert (when the list is
nonempty).  existingIds is the outcome of the id read; on error the code
continues with an empty id list. -/
def saveAnnouncementsCalls (announcements : List Announcement)
    (existingIds : Except String (List String)) : List RemoteCall :=
  let existing := match existingIds with
    | .ok ids => ids
    | .error _ => []
  let currentIds := announcements.map (fun a => a.id)
  let idsToDelete := existing.filter (fun i => !currentIds.contains i)
  [RemoteCall.select_announcement_ids]
    ++ (if idsToDelete ≠ [] then [RemoteCall.delete_announcements idsToDelete]
        else [])
    ++ (if announcements ≠ [] then
          [RemoteCall.upsert_announcements announcements]
        else [])

/-- The remote calls issued by saveEquipment (storage.ts lines 197-273)
after the localStorage backup.  On a failed id read it additionally tries
the create_equipment_stats_table_if_not_exists rpc. -/
def saveEquipmentCalls (equipment : List Equipment)
    (existingIds : Except String (List String)) : List RemoteCall :=
  let existing := match existingIds with
    | .ok ids => ids
    | .error _ => []
  let fixup := match existingIds with
    | .ok _ => []
    | .error _ => [RemoteCall.rpc_create_equipment_stats_table]
  let currentIds := equipment.map (fun e => e.id)
  let idsToDelete := existing.filter (fun i => !currentIds.contains i)
  [RemoteCall.select_equipment_ids]
    ++ fixup
    ++ (if idsToDelete ≠ [] then
          [RemoteCall.delete_equipment_stats idsToDelete]
        else [])
    ++ (if equipment ≠ [] then
          [RemoteCall.upsert_equipment_stats equipment]
        else [])

/-- Result of a modelled storage read: the returned rows, whether the
localStorage cache was read, whether the cache was written, and the remote
calls issued beyond the primary read. -/
structure StorageReadResult (α : Type) where
  ret : List α
  cacheRead : Bool
  cacheWritten : Bool
  extraCalls : List RemoteCall
  deriving DecidableEq, Repr

/-- Shallow embedding of getAnnouncements (storage.ts lines 297-345).
remote is the outcome of the primary select (error, or data possibly
null).  localCache is the parsed localStorage content, none when absent.
saveIdsRes feeds the saveAnnouncements sync performed on the
success-but-empty path. -/
def getAnnouncements (remote : Except String (Option (List Announcement)))
    (localCache : Option (List Announcement))
    (saveIdsRes : Except String (List String)) :
    StorageReadResult Announcement :=
  match remote with
  | .error _ =>
    { ret := localCache.getD DEFAULT_ANNOUNCEMENTS, cacheRead := true,
      cacheWritten := false, extraCalls := [] }
  | .ok data =>
    match data with
    | some d =>
      if d ≠ [] then
        { ret := d, cacheRead := false, cacheWritten := false,
          extraCalls := [] }
      else
        let localData := localCache.getD DEFAULT_ANNOUNCEMENTS
        { ret := localData, cacheRead := true, cacheWritten := false,
          extraCalls :=
            if localData ≠ [] then saveAnnouncementsCalls localData saveIdsRes
            else [] }
    | none =>
      let localData := localCache.getD DEFAULT_ANNOUNCEMENTS
      { ret := localData, cacheRead := true, cacheWritten := false,
        extraCalls :=
          if localData ≠ [] then saveAnnouncementsCalls localData saveIdsRes
          else [] }

/-- Shallow embedding of getEquipmentAsync (storage.ts lines 375-449).
On a successful nonempty read the remote rows are written to the cache as a
backup and returned; on a successful empty or null read the cache is read
and, when nonempty, synced back through saveEquipment; on a failed read the
cache is the display fallback. -/
def getEquipmentAsync (remote : Except String (Option (List Equipment)))
    (localCache : Option (List Equipment))
    (saveIdsRes : Except String (List String)) :
    StorageReadResult Equipment :=
  match remote with
  | .error _ =>
    { ret := localCache.getD DEFAULT_EQUIPMENT, cacheRead := true,
      cacheWritten := false, extraCalls := [] }
  | .ok data =>
    match data with
    | some d =>
      if d ≠ [] then
        { ret := d, cacheRead := false, cacheWritten := true,
          extraCalls := [] }
      else
        let localData := localCache.getD DEFAULT_EQUIPMENT
        { ret := localData, cacheRead := true, cacheWritten := false,
          extraCalls :=
            if localData ≠ [] then saveEquipmentCalls localData saveIdsRes
            else [] }
    | none =>
      let localData := localCache.getD DEFAULT_EQUIPMENT
      { ret := localData, cacheRead := true, cacheWritten := false,
        extraCalls :=
          if localData ≠ [] then saveEquipmentCalls localData saveIdsRes
          else [] }

/-! ## Equipment fallback chain (borrowings-page.tsx, EquipmentPage
fetchEquipment, lines 230-329) -/

/-- A supabase result pair: error flag and possibly null data. -/
structure SupaRes (α : Type) where
  error : Bool
  data : Option α
  deriving DecidableEq, Repr

/-- Environment of fetchEquipment: the outcome of each remote call it can
perform.  simpleData carries the raw string returned by
simple_load_equipment (null when absent) and simpleParsed the result of
JSON.parse on that string (none when the parse throws or does not yield an
array). -/
structure FetchEquipmentEnv where
  primary : SupaRes (List Equipment)
  v2 : SupaRes (List Equipment)
  simpleError : Bool
  simpleData : Option String
  simpleParsed : Option (List Equipment)
  fixError : Bool
  retry : SupaRes (List Equipment)
  deriving DecidableEq, Repr

/-- Outcome of fetchEquipment: equipment displayed, a failure toast, or no
state update at all (the silent success-but-empty path). -/
inductive FetchOutcome
  | displayed (l : List Equipment)
  | failureToast
  | noUpdate
  deriving DecidableEq, Repr

/-- Shallow embedding of fetchEquipment (borrowings-page.tsx lines
230-329), returning the ordered list of remote calls issued and the
outcome.  Note the JS truthiness details: a returned empty array is truthy
(so a v2 success with [] is displayed), while a null payload or an empty
string is falsy. -/
def fetchEquipmentFixPath (env : FetchEquipmentEnv) :
    List RemoteCall × FetchOutcome :=
  if env.fixError then
    ([.select_equipment_stats, .rpc_fix_equipment_loading], .noUpdate)
  else
    ([.select_equipment_stats, .rpc_fix_equipment_loading,
      .select_equipment_stats],
     match env.retry with
     | { error := false, data := some l } =>
       if l ≠ [] then .displayed l else .noUpdate
     | { error := _, data := _ } => .noUpdate)

def fetchEquipment (env : FetchEquipmentEnv) :
    List RemoteCall × FetchOutcome :=
  if env.primary.error then
    -- fallback chain (lines 240-294)
    if env.v2.error then
      if env.simpleError then
        if env.fixError then
          ([.select_equipment_stats, .rpc_load_equipment_for_client_v2,
            .rpc_simple_load_equipment, .rpc_fix_equipment_loading],
           .failureToast)
        else
          -- one retry of the primary query after the fix attempt
          ([.select_equipment_stats, .rpc_load_equipment_for_client_v2,
            .rpc_simple_load_equipment, .rpc_fix_equipment_loading,
            .select_equipment_stats],
           match env.retry with
           | { error := false, data := some l } =>
             if l = [] then .failureToast else .displayed l
           | { error := _, data := _ } => .failureToast)
      else
        -- simple_load_equipment completed without error
        ([.select_equipment_stats, .rpc_load_equipment_for_client_v2,
          .rpc_simple_load_equipment],
         match env.simpleData with
         | some s =>
           if s ≠ "" then
             match env.simpleParsed with
             | some l => if l ≠ [] then .displayed l else .failureToast
             | none => .failureToast
           else .failureToast
         | none => .failureToast)
    else
      -- load_equipment_for_client_v2 completed without error
      ([.select_equipment_stats, .rpc_load_equipment_for_client_v2],
       match env.v2.data with
       | some l => .displayed l
       | none => .failureToast)
  else
    -- primary succeeded (lines 296-318)
    match env.primary.data with
    | some d =>
      if d ≠ [] then ([.select_equipment_stats], .displayed d)
      else fetchEquipmentFixPath env
    | none => fetchEquipmentFixPath env

/-! ## Spec-level auxiliary definition for the C10 refinement -/

/-- Spec-level first-occurrence deduplication by id: keep the first row of
each id, drop every later duplicate.  Stated from the words of the claim,
to be compared with the filter pass of fetchUsers. -/
def keepFirstById : List ProfileRow → List ProfileRow
  | [] => []
  | r :: rest => r :: keepFirstById (rest.filter (fun x => !(x.id == r.id)))
  termination_by l => l.length
  decreasing_by
    simp only [List.length_cons]
    exact Nat.lt_succ_of_le (List.length_filter_le _ _)

/-- A concrete cached announcement, used for evaluating the storage read
paths at explicit inputs. -/
def cachedAnn : Announcement :=
  { id := "9", title := "Cached", content := "Cached item", type_ := "news" }

/-- A concrete profiles_with_points result (points descending, with one
admin row and one duplicated id), used for evaluating fetchUsersRank at an
explicit input. -/
def rowsSample : List ProfileRow :=
  [ { id := "a", name := "Alice", points := 30, is_admin := false },
    { id := "b", name := "Boss", points := 25, is_admin := true },
    { id := "a", name := "Alice2", points := 20, is_admin := false },
    { id := "c", name := "Cleo", points := 10, is_admin := false } ]

/-! # Theorems -/

/-! ## Helper lemmas about the fetchUsers passes -/

theorem filterUniqueNonAdmin_sublist (rows : List ProfileRow)
    (seen : List String) :
    List.Sublist (filterUniqueNonAdmin rows seen) rows := by
  induction rows generalizing seen with
  | nil => simp [filterUniqueNonAdmin]
  | cons r rest ih =>
    simp only [filterUniqueNonAdmin]
    split
    · exact List.Sublist.cons r (ih seen)
    · exact List.Sublist.cons₂ r (ih (r.id :: seen))

theorem mem_filterUniqueNonAdmin {rows : List ProfileRow}
    {seen : List String} {x : ProfileRow}
    (hx : x ∈ filterUniqueNonAdmin rows seen) :
    x.is_admin = false ∧ seen.contains x.id = false := by
  induction rows generalizing seen with
  | nil => simp [filterUniqueNonAdmin] at hx
  | cons r rest ih =>
    simp only [filterUniqueNonAdmin] at hx
    rcases h : (seen.contains r.id || r.is_admin) with _ | _
    · rw [h] at hx
      simp only [Bool.false_eq_true, if_false] at hx
      rcases List.mem_cons.mp hx with rfl | hx'
      · have h' := Bool.or_eq_false_iff.mp h
        exact ⟨h'.2, h'.1⟩
      · have h' := ih hx'
        refine ⟨h'.1, ?_⟩
        have h2 := h'.2
        rw [List.contains_cons] at h2
        exact (Bool.or_eq_false_iff.mp h2).2
    · rw [h] at hx
      simp only [if_true] at hx
      exact ih hx

theorem nodup_filterUniqueNonAdmin (rows : List ProfileRow)
    (seen : List String) :
    ((filterUniqueNonAdmin rows seen).map (fun r => r.id)).Nodup := by
  induction rows generalizing seen with
  | nil => simp [filterUniqueNonAdmin]
  | cons r rest ih =>
    simp only [filterUniqueNonAdmin]
    split
    · exact ih seen
    · simp only [List.map_cons, List.nodup_cons]
      refine ⟨?_, ih (r.id :: seen)⟩
      intro hmem
      rcases List.mem_map.mp hmem with ⟨x, hx, hxid⟩
      have h2 := (mem_filterUniqueNonAdmin hx).2
      rw [List.contains_cons] at h2
      simp [hxid] at h2

theorem id_mem_filterUniqueNonAdmin {rows : List ProfileRow}
    {seen : List String} {r : ProfileRow} (hr : r ∈ rows)
    (hadmin : r.is_admin = false) (hseen : seen.contains r.id = false) :
    r.id ∈ (filterUniqueNonAdmin rows seen).map (fun x => x.id) := by
  induction rows generalizing seen with
  | nil => cases hr
  | cons a rest ih =>
    simp only [filterUniqueNonAdmin]
    rcases List.mem_cons.mp hr with rfl | hr'
    · rw [hseen, hadmin]
      simp
    · cases h : (seen.contains a.id || a.is_admin) with
      | false =>
        simp only [Bool.false_eq_true, if_false]
        by_cases hid : r.id = a.id
        · simp [hid]
        · simp only [List.map_cons, List.mem_cons]
          right
          refine ih hr' ?_
          rw [List.contains_cons]
          simp only [Bool.or_eq_false_iff]
          exact ⟨by simpa using hid, hseen⟩
      | true =>
        simp only [if_true]
        exact ih hr' hseen

theorem enumFrom_rankedUser_map_row (l : List ProfileRow) (n : Nat) :
    (((List.enumFrom n l).map
        (fun p => ({ row := p.2, rank := p.1 + 1 } : RankedUser))).map
      (fun u => u.row)) = l := by
  induction l generalizing n with
  | nil => simp
  | cons a t ih => simp [List.enumFrom, ih]

theorem enumFrom_rankedUser_map_rank (l : List ProfileRow) (n : Nat) :
    (((List.enumFrom n l).map
        (fun p => ({ row := p.2, rank := p.1 + 1 } : RankedUser))).map
      (fun u => u.rank)) = List.range' (n + 1) l.length := by
  induction l generalizing n with
  | nil => simp
  | cons a t ih => simp [List.enumFrom, List.range'_succ, ih]

theorem filterUniqueNonAdmin_eq_keepFirst (rows : List ProfileRow)
    (seen : List String) :
    filterUniqueNonAdmin rows seen =
      keepFirstById ((rows.filter (fun r => !r.is_admin)).filter
        (fun r => !(seen.contains r.id))) := by
  induction rows generalizing seen with
  | nil => simp [filterUniqueNonAdmin, keepFirstById]
  | cons r rest ih =>
    cases ha : r.is_admin with
    | true =>
      -- admin row: dropped here, dropped by the first filter
      simp only [filterUniqueNonAdmin, List.filter_cons, ha, Bool.or_true,
        Bool.not_true, Bool.false_eq_true, if_false, if_true]
      exact ih seen
    | false =>
      cases hc : seen.contains r.id with
      | true =>
        -- already-seen id: dropped here, dropped by the second filter
        simp only [filterUniqueNonAdmin, List.filter_cons, ha, hc,
          Bool.or_false, Bool.not_false, Bool.not_true, Bool.false_eq_true,
          if_false, if_true]
        exact ih seen
      | false =>
        -- kept by both filters: first occurrence of a fresh id
        simp only [filterUniqueNonAdmin, List.filter_cons, ha, hc,
          Bool.or_false, Bool.not_false, Bool.false_eq_true, if_false,
          if_true, keepFirstById]
        rw [ih (r.id :: seen)]
        congr 1
        simp only [List.filter_filter]
        congr 1
        apply List.filter_congr
        intro x _
        rw [List.contains_cons]
        cases hxa : x.is_admin <;> cases hxc : seen.contains x.id <;>
          cases hxr : x.id == r.id <;> simp [hxa, hxc, hxr]

/-- Claim C1: for every value of the fixed adjustment set and every target
user id, an admin click on a leaderboard admin-controls button invokes
add_points_to_user with points_to_add equal to the exact signed integer of
the button, with no clamping, scaling, absolute value, or sign change; and
every add_points_to_user call the handler issues carries exactly that
value. -/
theorem claim_C1 (adminEnv : Option String) (u : AuthUser)
    (targetId : String) (adj : PointAdjustment) (env : AddPointsEnv)
    (_hadj : adj ∈ POINT_ADJUSTMENTS) (hadmin : some u.email = adminEnv) :
    ((adminControlsClick adminEnv (some u) targetId adj env).1).head? =
      some (.rpc_add_points_to_user targetId adj.value) ∧
    (∀ uid v, RemoteCall.rpc_add_points_to_user uid v ∈
        (adminControlsClick adminEnv (some u) targetId adj env).1 →
      uid = targetId ∧ v = adj.value) := by
  unfold adminControlsClick addPoints
  rcases env with ⟨ae, ne⟩
  cases ae <;> simp [hadmin]

/-- Witness for claim C1 at the +5 adjustment. -/
theorem claim_C1_witness :
    ((adminControlsClick (some "admin@example.com")
        (some { id := "a1", email := "admin@example.com" }) "target1"
        { value := 5, label := "+5" }
        { addPointsError := false, notifError := false }).1).head? =
      some (.rpc_add_points_to_user "target1" 5) :=
  (claim_C1 (some "admin@example.com")
    { id := "a1", email := "admin@example.com" } "target1"
    { value := 5, label := "+5" }
    { addPointsError := false, notifError := false } (by decide) rfl).1

/-- Claim C2: a purchase attempt by a signed-in user whose displayed
balance is strictly below the item cost is blocked client-side: no remote
call at all (in particular no purchase_shop_item rpc) and the
insufficient-points toast; and the purchase rpc is issued exactly when the
displayed balance is at least the cost. -/
theorem claim_C2 (u : AuthUser) (userPoints : Int) (item : ShopItemType)
    (purchaseError : Bool) :
    (userPoints < item.points_cost →
      (handlePurchase (some u) userPoints item purchaseError).1 = [] ∧
      (handlePurchase (some u) userPoints item purchaseError).2 =
        .insufficientPoints) ∧
    (RemoteCall.rpc_purchase_shop_item item.id u.id 1 ∈
        (handlePurchase (some u) userPoints item purchaseError).1 ↔
      item.points_cost ≤ userPoints) := by
  unfold handlePurchase
  by_cases h : userPoints < item.points_cost <;>
    cases purchaseError <;> simp [h] <;> omega

/-- Witness for claim C2: balance 3, cost 5. -/
theorem claim_C2_witness :
    (handlePurchase (some { id := "u1", email := "member@example.com" }) 3
        { id := "i1", name := "Microphone", points_cost := 5 } false).1 = [] ∧
    (handlePurchase (some { id := "u1", email := "member@example.com" }) 3
        { id := "i1", name := "Microphone", points_cost := 5 } false).2 =
      .insufficientPoints :=
  (claim_C2 { id := "u1", email := "member@example.com" } 3
    { id := "i1", name := "Microphone", points_cost := 5 } false).1
    (by decide)

/-- Claim C3 counterexample: the claim says the client never blocks an
operation on a locally computed condition; yet a signed-in user with
displayed balance 0 attempting to buy a 5-point item triggers no remote
call and the insufficient-points error, and an equipment addition with an
empty name and count 0 issues no save. -/
theorem claim_C3_counterexample :
    (handlePurchase (some { id := "u1", email := "member@example.com" }) 0
        { id := "i1", name := "Microphone", points_cost := 5 } false).1 =
      [] ∧
    (handlePurchase (some { id := "u1", email := "member@example.com" }) 0
        { id := "i1", name := "Microphone", points_cost := 5 } false).2 =
      .insufficientPoints ∧
    addEquipment { name := "", count := 0, type_ := "camera",
                   description := "" } "17" [] = none := by
  refine ⟨rfl, rfl, rfl⟩

/-- Claim C3 as amended: the client does enforce two local guards — a
purchase is blocked exactly when the displayed balance is below the item
cost, and an equipment addition is saved exactly when the name is nonempty
and the count positive — while visibility toggles and cart additions are
issued regardless of locally held state. -/
theorem claim_C3_amended (u : AuthUser) (pts : Int) (item : ShopItemType)
    (e : Bool) (form : EquipmentForm) (newId : String)
    (eqp : List Equipment) (b : String) (hasCb : Bool)
    (r : Except String Bool) :
    ((handlePurchase (some u) pts item e).1 ≠ [] ↔
      item.points_cost ≤ pts) ∧
    (addEquipment form newId eqp ≠ none ↔
      (form.name ≠ "" ∧ 0 < form.count)) ∧
    (toggleVisibility b hasCb r).2 =
      [.rpc_toggle_borrowing_visibility b] ∧
    addToCart (some u) item = [.upsert_cart_items u.id item.id 1] := by
  refine ⟨?_, ?_, ?_, rfl⟩
  · unfold handlePurchase
    by_cases h : pts < item.points_cost <;> cases e <;> simp [h] <;> omega
  · unfold addEquipment
    by_cases h1 : form.name = "" <;> by_cases h2 : form.count ≤ 0 <;>
      simp [h1, h2] <;> omega
  · rcases r with _ | d <;> simp [toggleVisibility]

/-- Claim C5 counterexample: a successful leaderboard point adjustment
issues two remote side-effect calls — add_points_to_user followed by a
separate create_notification — not a single backend procedure. -/
theorem claim_C5_counterexample :
    ((addPoints (some "admin@example.com")
        (some { id := "a1", email := "admin@example.com" }) "u2" 5
        { addPointsError := false, notifError := false }).1.filter
      RemoteCall.isWrite) =
      [.rpc_add_points_to_user "u2" 5,
       .rpc_create_notification "u2" (.earned 5) "success"] := by
  decide

/-- Claim C5 as amended: purchase, claim approval, mark-notification-read
and the AdminPanel point adjustment are each a single remote write; the
leaderboard addPoints handler alone issues two remote writes on success —
add_points_to_user followed by a separate create_notification — and only
the first when the adjustment rpc fails. -/
theorem claim_C5_amended (user : Option AuthUser) (pts : Int)
    (item : ShopItemType) (e1 : Bool) (c s : String) (e2 : Bool)
    (n : NotificationRow) (ia iaa : Bool) (uid2 : String) (v2 : Int)
    (e3 : Bool) (adminEnv : Option String) (u : AuthUser) (uid : String)
    (v : Int) (ne : Bool) :
    ((handlePurchase user pts item e1).1.filter RemoteCall.isWrite).length
        ≤ 1 ∧
    (handleUpdateStatus c s e2).filter RemoteCall.isWrite =
      [.rpc_update_claim_status c s] ∧
    ((handleMarkAsRead n).filter RemoteCall.isWrite).length ≤ 1 ∧
    ((handlePointChange ia iaa uid2 v2 e3).filter
      RemoteCall.isWrite).length ≤ 1 ∧
    (some u.email = adminEnv →
      (addPoints adminEnv (some u) uid v
          { addPointsError := false, notifError := ne }).1.filter
        RemoteCall.isWrite =
        [.rpc_add_points_to_user uid v,
         .rpc_create_notification uid
           (if v > 0 then .earned v else .deducted v.natAbs)
           (if v > 0 then "success" else "error")] ∧
      (addPoints adminEnv (some u) uid v
          { addPointsError := true, notifError := ne }).1.filter
        RemoteCall.isWrite = [.rpc_add_points_to_user uid v]) := by
  refine ⟨?_, ?_, ?_, ?_, ?_⟩
  · rcases user with _ | u' <;>
      [simp [handlePurchase, RemoteCall.isWrite];
       (by_cases h : pts < item.points_cost <;> cases e1 <;>
         simp [handlePurchase, RemoteCall.isWrite, h])]
  · cases e2 <;> simp [handleUpdateStatus, RemoteCall.isWrite]
  · cases h : n.is_read <;> simp [handleMarkAsRead, RemoteCall.isWrite, h]
  · cases ia <;> cases iaa <;> cases e3 <;>
      simp [handlePointChange, RemoteCall.isWrite]
  · intro hadmin
    constructor <;> simp [addPoints, hadmin, RemoteCall.isWrite]

/-- Witness for claim C5 as amended, at a concrete admin adjustment of
-10 points. -/
theorem claim_C5_witness :
    ((handlePurchase (some { id := "u1", email := "m@x.y" }) 9
        { id := "i1", name := "Mixer", points_cost := 4 } false).1.filter
      RemoteCall.isWrite).length ≤ 1 ∧
    (addPoints (some "admin@example.com")
        (some { id := "a1", email := "admin@example.com" }) "u2" (-10)
        { addPointsError := false, notifError := false }).1.filter
      RemoteCall.isWrite =
      [.rpc_add_points_to_user "u2" (-10),
       .rpc_create_notification "u2" (.deducted 10) "error"] := by
  constructor
  · exact (claim_C5_amended (some { id := "u1", email := "m@x.y" }) 9
      { id := "i1", name := "Mixer", points_cost := 4 } false "c" "approved"
      false { id := "n1", message := "m", is_read := false } true true "u9"
      3 false (some "admin@example.com")
      { id := "a1", email := "admin@example.com" } "u2" (-10) false).1
  · have h := ((claim_C5_amended (some { id := "u1", email := "m@x.y" }) 9
      { id := "i1", name := "Mixer", points_cost := 4 } false "c" "approved"
      false { id := "n1", message := "m", is_read := false } true true "u9"
      3 false (some "admin@example.com")
      { id := "a1", email := "admin@example.com" } "u2" (-10)
      false).2.2.2.2 rfl).1
    simpa using h

/-- Claim C7: for a completed toggle_borrowing_visibility call returning r,
the toast reports the borrowing as hidden exactly when r is true and as
visible exactly when r is false, and the borrowings list refresh callback
is invoked. -/
theorem claim_C7 (borrowingId : String) (r : Bool) :
    (((toggleVisibility borrowingId true (.ok r)).1).message =
        "Borrowing is now hidden" ↔ r = true) ∧
    (((toggleVisibility borrowingId true (.ok r)).1).message =
        "Borrowing is now visible" ↔ r = false) ∧
    ((toggleVisibility borrowingId true (.ok r)).1).refreshed = true := by
  cases r <;> refine ⟨?_, ?_, rfl⟩ <;> simp [toggleVisibility]

/-- Claim C8: the realtime notification INSERT callback prepends the
delivered row to the displayed list, raises the unread count accordingly,
and issues no remote call (no re-fetch of the list). -/
theorem claim_C8 (n : NotificationRow) (prev : List NotificationRow) :
    (notificationInsertCallback n prev).newList = n :: prev ∧
    (notificationInsertCallback n prev).calls = [] ∧
    unreadCount (notificationInsertCallback n prev).newList =
      unreadCount prev + (if n.is_read then 0 else 1) := by
  refine ⟨rfl, rfl, ?_⟩
  cases h : n.is_read <;>
    simp [notificationInsertCallback, unreadCount, List.filter_cons, h]

/-- Claim C9 counterexample: with VITE_ADMIN_EMAIL set to
alice@example.com, the shop page accepts alice as admin, while the
borrowings page and the user-management panel reject her and instead
accept the hardcoded address — so not every admin check compares against
the environment-supplied identity. -/
theorem claim_C9_counterexample :
    shopPageIsAdmin (some "alice@example.com")
      (some "alice@example.com") = true ∧
    borrowingsPageIsAdmin (some "alice@example.com") = false ∧
    userManagementIsAdmin (some "alice@example.com") = false ∧
    borrowingsPageIsAdmin (some hardcodedAdminEmail) = true ∧
    adminPanelIsAuthorized "alice@example.com" = false := by
  decide

/-- Claim C9 as amended: only part of the admin checks use the
environment-supplied identity — the shop/announcements/config pages compare
against VITE_ADMIN_EMAIL, the protected route against VITE_ADMIN_EMAIL with
a hardcoded fallback, while the borrowings page, the user-management panel
and the leaderboard AdminPanel compare against the hardcoded address and
ignore the environment. -/
theorem claim_C9_amended (env : Option String) (email : String) :
    (shopPageIsAdmin env (some email) = true ↔ env = some email) ∧
    (protectedRouteIsAdmin env (some email) = true ↔
      email = envOrHardcoded env) ∧
    (borrowingsPageIsAdmin (some email) = true ↔
      email = hardcodedAdminEmail) ∧
    (userManagementIsAdmin (some email) = true ↔
      email = hardcodedAdminEmail) ∧
    (adminPanelIsAuthorized email = true ↔ email = hardcodedAdminEmail) := by
  refine ⟨?_, ?_, ?_, ?_, ?_⟩ <;>
    simp [shopPageIsAdmin, protectedRouteIsAdmin, borrowingsPageIsAdmin,
      userManagementIsAdmin, adminPanelIsAuthorized] <;>
    exact eq_comm

/-- Claim C4 counterexample: an execution of getAnnouncements in which the
remote read succeeds (no error) but returns no rows reads the local cache,
returns the cached data, and pushes the cached rows back to the remote
store as an upsert — so the cache is not used only when the remote read
fails. -/
theorem claim_C4_counterexample :
    (getAnnouncements (.ok (some [])) (some [cachedAnn]) (.ok [])).ret =
      [cachedAnn] ∧
    (getAnnouncements (.ok (some [])) (some [cachedAnn])
      (.ok [])).cacheRead = true ∧
    RemoteCall.upsert_announcements [cachedAnn] ∈
      (getAnnouncements (.ok (some [])) (some [cachedAnn])
        (.ok [])).extraCalls := by
  refine ⟨rfl, rfl, ?_⟩
  simp [getAnnouncements, saveAnnouncementsCalls, cachedAnn]

/-- Claim C4 as amended: the local cache is a display fallback for the
equipment and announcements read paths when the remote read fails or
succeeds with no rows; whenever the remote read succeeds with a nonempty
result, the returned value is the remote data, the cache is not read, and
no cached data is pushed back to the remote store (getEquipmentAsync also
refreshes the cache from the remote data in that case). -/
theorem claim_C4_amended (d : List Announcement)
    (cache : Option (List Announcement)) (ids : Except String (List String))
    (de : List Equipment) (cachee : Option (List Equipment))
    (idse : Except String (List String)) (hd : d ≠ []) (hde : de ≠ []) :
    (getAnnouncements (.ok (some d)) cache ids).ret = d ∧
    (getAnnouncements (.ok (some d)) cache ids).cacheRead = false ∧
    (getAnnouncements (.ok (some d)) cache ids).extraCalls = [] ∧
    (getEquipmentAsync (.ok (some de)) cachee idse).ret = de ∧
    (getEquipmentAsync (.ok (some de)) cachee idse).cacheRead = false ∧
    (getEquipmentAsync (.ok (some de)) cachee idse).extraCalls = [] := by
  simp [getAnnouncements, getEquipmentAsync, hd, hde]

/-- Witness for claim C4 as amended: a successful one-row remote read. -/
theorem claim_C4_witness :
    (getAnnouncements (.ok (some [cachedAnn])) (some []) (.ok [])).ret =
      [cachedAnn] ∧
    (getAnnouncements (.ok (some [cachedAnn])) (some [])
      (.ok [])).cacheRead = false ∧
    (getAnnouncements (.ok (some [cachedAnn])) (some [])
      (.ok [])).extraCalls = [] ∧
    (getEquipmentAsync (.ok (some DEFAULT_EQUIPMENT)) none (.ok [])).ret =
      DEFAULT_EQUIPMENT ∧
    (getEquipmentAsync (.ok (some DEFAULT_EQUIPMENT)) none
      (.ok [])).cacheRead = false ∧
    (getEquipmentAsync (.ok (some DEFAULT_EQUIPMENT)) none
      (.ok [])).extraCalls = [] :=
  claim_C4_amended [cachedAnn] (some []) (.ok []) DEFAULT_EQUIPMENT none
    (.ok []) (by simp) (by simp [DEFAULT_EQUIPMENT])

/-- Claim C6 counterexample: when the primary equipment query fails and
load_equipment_for_client_v2 completes without error but with a null
payload, the chain stops with a failure toast: the first successful
alternative does not supply the displayed data and the remaining
alternatives are never invoked. -/
theorem claim_C6_counterexample :
    fetchEquipment
        { primary := { error := true, data := none },
          v2 := { error := false, data := none },
          simpleError := false, simpleData := none, simpleParsed := none,
          fixError := false, retry := { error := false, data := none } } =
      ([.select_equipment_stats, .rpc_load_equipment_for_client_v2],
       .failureToast) := by
  rfl

/-- Claim C6 as amended: when the primary equipment read fails, the client
tries the alternatives strictly sequentially in the fixed order
load_equipment_for_client_v2, then simple_load_equipment, then
fix_equipment_loading followed by a single retry of the primary query; a
later alternative runs only when every earlier call returned an error, the
first alternative that completes with usable data terminates the chain and
supplies the displayed data, while a completion without usable data (null,
unparseable or empty payload) aborts the chain with an overall failure;
there is no retry or backoff beyond this chain. -/
theorem claim_C6_amended (env : FetchEquipmentEnv)
    (h : env.primary.error = true) :
    (fetchEquipment env).1.take 2 =
      [.select_equipment_stats, .rpc_load_equipment_for_client_v2] ∧
    (RemoteCall.rpc_simple_load_equipment ∈ (fetchEquipment env).1 ↔
      env.v2.error = true) ∧
    (RemoteCall.rpc_fix_equipment_loading ∈ (fetchEquipment env).1 ↔
      (env.v2.error = true ∧ env.simpleError = true)) ∧
    ((fetchEquipment env).1.count RemoteCall.select_equipment_stats = 2 ↔
      (env.v2.error = true ∧ env.simpleError = true ∧
        env.fixError = false)) ∧
    (∀ l, env.v2.error = false → env.v2.data = some l →
      fetchEquipment env =
        ([.select_equipment_stats, .rpc_load_equipment_for_client_v2],
         .displayed l)) ∧
    (∀ s l, env.v2.error = true → env.simpleError = false →
      env.simpleData = some s → s ≠ "" → env.simpleParsed = some l →
      l ≠ [] →
      fetchEquipment env =
        ([.select_equipment_stats, .rpc_load_equipment_for_client_v2,
          .rpc_simple_load_equipment], .displayed l)) ∧
    (∀ l, env.v2.error = true → env.simpleError = true →
      env.fixError = false → env.retry.error = false →
      env.retry.data = some l → l ≠ [] →
      fetchEquipment env =
        ([.select_equipment_stats, .rpc_load_equipment_for_client_v2,
          .rpc_simple_load_equipment, .rpc_fix_equipment_loading,
          .select_equipment_stats], .displayed l)) := by
  rcases env with ⟨⟨pe, pd⟩, ⟨ve, vd⟩, se, sd, sp, fe, ⟨re, rd⟩⟩
  simp only at h
  subst h
  cases ve <;> cases se <;> cases fe <;>
    refine ⟨?_, ?_, ?_, ?_, ?_, ?_, ?_⟩ <;>
    simp [fetchEquipment] <;>
    try intros <;> simp_all

/-- Witness for claim C6 as amended: primary fails, v2 errors, simple
returns a parseable one-element payload. -/
theorem claim_C6_witness :
    fetchEquipment
        { primary := { error := true, data := none },
          v2 := { error := true, data := none },
          simpleError := false, simpleData := some "json",
          simpleParsed := some DEFAULT_EQUIPMENT, fixError := false,
          retry := { error := false, data := none } } =
      ([.select_equipment_stats, .rpc_load_equipment_for_client_v2,
        .rpc_simple_load_equipment], .displayed DEFAULT_EQUIPMENT) :=
  (claim_C6_amended
    { primary := { error := true, data := none },
      v2 := { error := true, data := none },
      simpleError := false, simpleData := some "json",
      simpleParsed := some DEFAULT_EQUIPMENT, fixError := false,
      retry := { error := false, data := none } }
    rfl).2.2.2.2.2.1 "json" DEFAULT_EQUIPMENT rfl rfl rfl (by simp) rfl
    (by simp [DEFAULT_EQUIPMENT])

/-- Claim C10: fetchUsers maps a profiles_with_points result to a list
equal to the first-occurrence deduplication of its non-admin rows — each
user id at most once with later duplicates dropped, every is_admin row
excluded, the backend row order (hence its points-descending order)
preserved — and assigns each remaining user the rank equal to its 1-based
position, so the displayed ranks are exactly 1..n. -/
theorem claim_C10 (rows : List ProfileRow) :
    ((fetchUsersRank rows).map (fun u => u.row) =
      keepFirstById (rows.filter (fun r => !r.is_admin))) ∧
    ((fetchUsersRank rows).map (fun u => u.row.id)).Nodup ∧
    (∀ u ∈ fetchUsersRank rows, u.row.is_admin = false) ∧
    List.Sublist ((fetchUsersRank rows).map (fun u => u.row)) rows ∧
    ((fetchUsersRank rows).map (fun u => u.rank) =
      List.range' 1 (fetchUsersRank rows).length) ∧
    (∀ r ∈ rows, r.is_admin = false →
      r.id ∈ (fetchUsersRank rows).map (fun u => u.row.id)) ∧
    (rows.Pairwise (fun a b => b.points ≤ a.points) →
      ((fetchUsersRank rows).map (fun u => u.row.points)).Pairwise
        (fun a b => b ≤ a)) := by
  have hrow : (fetchUsersRank rows).map (fun u => u.row) =
      filterUniqueNonAdmin rows [] := by
    unfold fetchUsersRank rankRows
    rw [List.enum]
    exact enumFrom_rankedUser_map_row _ 0
  have hids : (fetchUsersRank rows).map (fun u => u.row.id) =
      (filterUniqueNonAdmin rows []).map (fun r => r.id) := by
    have : (fetchUsersRank rows).map (fun u => u.row.id) =
        ((fetchUsersRank rows).map (fun u => u.row)).map (fun r => r.id) := by
      simp [List.map_map]
    rw [this, hrow]
  refine ⟨?_, ?_, ?_, ?_, ?_, ?_, ?_⟩
  · rw [hrow, filterUniqueNonAdmin_eq_keepFirst rows []]
    congr 1
    simp
  · rw [hids]
    exact nodup_filterUniqueNonAdmin rows []
  · intro u hu
    have : u.row ∈ (fetchUsersRank rows).map (fun v => v.row) :=
      List.mem_map.mpr ⟨u, hu, rfl⟩
    rw [hrow] at this
    exact (mem_filterUniqueNonAdmin this).1
  · rw [hrow]
    exact filterUniqueNonAdmin_sublist rows []
  · have hlen : (fetchUsersRank rows).length =
        (filterUniqueNonAdmin rows []).length := by
      unfold fetchUsersRank rankRows
      simp
    rw [hlen]
    unfold fetchUsersRank rankRows
    rw [List.enum]
    exact enumFrom_rankedUser_map_rank _ 0
  · intro r hr hadmin
    rw [hids]
    exact id_mem_filterUniqueNonAdmin hr hadmin rfl
  · intro hsorted
    have hsub : List.Sublist ((fetchUsersRank rows).map (fun u => u.row))
        rows := by
      rw [hrow]
      exact filterUniqueNonAdmin_sublist rows []
    have hp : ((fetchUsersRank rows).map (fun u => u.row)).Pairwise
        (fun a b => b.points ≤ a.points) := hsorted.sublist hsub
    have : ((fetchUsersRank rows).map (fun u => u.row.points)) =
        (((fetchUsersRank rows).map (fun u => u.row)).map
          (fun r => r.points)) := by
      simp [List.map_map]
    rw [this]
    exact hp.map _ (fun a b hab => hab)

/-- Witness for claim C10 at a concrete points-descending result with one
admin row and a duplicated id. -/
theorem claim_C10_witness :
    rowsSample.Pairwise
      (fun a b : ProfileRow => b.points ≤ a.points) ∧
    ((fetchUsersRank rowsSample).map (fun u => u.row.points)).Pairwise
      (fun a b => b ≤ a) :=
  ⟨by decide, (claim_C10 rowsSample).2.2.2.2.2.2 (by decide)⟩

end LeaderboardApp
